import Mathlib

/-!
Verification development for the airtop-mcp server.

The development shallowly embeds the parts of the repository that the
verified properties are about:

* the JavaScript value universe and the builtins the server code relies on
  (truthiness, property access, `String(...)` conversion, `Array.prototype.join`,
  `JSON.stringify`), modelled from ECMA-262;
* `reportAirtopErrors` and the thirteen tool handlers from `src/mcp-server.ts`;
* the session registry (`sessionRegistry : Map<string, SessionMetadata>`) and
  its `set` / `delete` / `get` operations, modelled from the documented
  semantics of JavaScript `Map`;
* the tool registry boundary (schema validation, exception catching) that the
  server delegates to the MCP SDK — this part is modelled from the spec, as
  noted on each definition;
* the SSE transport gateway (`GET /sse`, `POST /messages`) and the startup
  logic of `src/server.ts` (help/version flags, API-key check, listen port).

JavaScript exceptions are modelled with `Except String`; a `.error` value is a
thrown exception whose payload is the text `String(err)` would produce.
JavaScript numbers are modelled as integers; no verified property depends on
fractional or NaN behaviour.
-/

/-! ## The JavaScript value universe

Values are modelled as finite trees.  A genuine JavaScript object graph can be
cyclic, which a tree cannot express; the constructor `vCyc fields` stands for
an object whose own enumerable properties are `fields` together with at least
one further property, stored under a key distinct from every key the program
reads, whose value closes a reference cycle.  `JSON.stringify` throws a
`TypeError` when it reaches such an object (ECMA-262, SerializeJSONProperty
cycle check); every other builtin used by the server treats it like any other
object. -/

mutual
inductive JSValue where
  | vNull
  | vUndef
  | vBool (b : Bool)
  | vNum (n : Int)
  | vStr (s : String)
  | vArr (elems : JSArr)
  | vObj (fields : JSFields)
  | vCyc (fields : JSFields)
deriving DecidableEq, Repr

inductive JSArr where
  | nil
  | cons (hd : JSValue) (tl : JSArr)
deriving DecidableEq, Repr

inductive JSFields where
  | nil
  | cons (key : String) (val : JSValue) (tl : JSFields)
deriving DecidableEq, Repr
end

open JSValue

def JSArr.toList : JSArr → List JSValue
  | .nil => []
  | .cons x xs => x :: xs.toList

def JSArr.length : JSArr → Nat
  | .nil => 0
  | .cons _ xs => xs.length + 1

def JSArr.ofList : List JSValue → JSArr
  | [] => .nil
  | x :: xs => .cons x (JSArr.ofList xs)

def JSFields.ofList : List (String × JSValue) → JSFields
  | [] => .nil
  | (k, v) :: fs => .cons k v (JSFields.ofList fs)

/-- Lookup of an own property among the listed fields (first match wins;
a real object has no duplicate keys). -/
def JSFields.lookup : JSFields → String → Option JSValue
  | .nil, _ => none
  | .cons k v fs, key => if k = key then some v else fs.lookup key

/-- Convenience constructor for an object literal. -/
def jObj (l : List (String × JSValue)) : JSValue := vObj (JSFields.ofList l)

/-- Convenience constructor for an array literal. -/
def jArr (l : List JSValue) : JSValue := vArr (JSArr.ofList l)

/-- Whether a value is `null` or `undefined` (the nullish values of
ECMA-262, the ones the `??` operator and optional chaining test for). -/
def isNullish : JSValue → Bool
  | vNull => true
  | vUndef => true
  | _ => false

/-- ECMA-262 ToBoolean restricted to the modelled values: `null`,
`undefined`, `false`, `0` and the empty string are falsy, everything else
(including empty arrays and objects) is truthy. -/
def jsTruthy : JSValue → Bool
  | vNull => false
  | vUndef => false
  | vBool b => b
  | vNum n => n != 0
  | vStr s => s ≠ ""
  | vArr _ => true
  | vObj _ => true
  | vCyc _ => true

/-- Property access `base[key]` on a non-nullish base: objects look the key up
among their own properties, arrays and strings expose `length`, other
primitives box to wrappers without the accessed properties.  Index properties
are not modelled — the server never reads them. -/
def jsProp (v : JSValue) (key : String) : JSValue :=
  match v with
  | vObj fs => (fs.lookup key).getD vUndef
  | vCyc fs => (fs.lookup key).getD vUndef
  | vArr xs => if key = "length" then vNum xs.length else vUndef
  | vStr s => if key = "length" then vNum s.length else vUndef
  | _ => vUndef

/-- Optional-chaining access `base?.[key]`: `undefined` on a nullish base,
ordinary property access otherwise.  This is also the access used for
destructuring an argument object that the caller guarantees to be non-nullish. -/
def jsQGet (v : JSValue) (key : String) : JSValue :=
  if isNullish v then vUndef else jsProp v key

/-- Plain property access `base.key`, which throws a `TypeError` when the base
is nullish. -/
def jsGetStrict (v : JSValue) (key : String) : Except String JSValue :=
  if isNullish v then
    .error ("TypeError: Cannot read properties of " ++ (if v = vNull then "null" else "undefined"))
  else .ok (jsProp v key)

/-- JavaScript `Array.prototype.join`: the separator goes between element
strings, `null` and `undefined` elements become the empty string, other
elements are converted with ToString. -/
def joinStrings (sep : String) : List String → String
  | [] => ""
  | [a] => a
  | a :: rest => a ++ sep ++ joinStrings sep rest

mutual
/-- ECMA-262 ToString restricted to the modelled values.  Plain objects
(cyclic or not) stringify to `[object Object]`; arrays stringify like
`Array.prototype.join` with separator `,`. -/
def jsToString : JSValue → String
  | vNull => "null"
  | vUndef => "undefined"
  | vBool b => if b then "true" else "false"
  | vNum n => toString n
  | vStr s => s
  | vArr xs => joinStrings "," (arrToStrings xs)
  | vObj _ => "[object Object]"
  | vCyc _ => "[object Object]"

def arrToStrings : JSArr → List String
  | .nil => []
  | .cons x xs => (if isNullish x then "" else jsToString x) :: arrToStrings xs
end

/-- Two lowercase hex digits of a byte, as used in `\u00XX` escapes. -/
def hexDigit (n : Nat) : String :=
  if n < 10 then toString n
  else if n = 10 then "a" else if n = 11 then "b" else if n = 12 then "c"
  else if n = 13 then "d" else if n = 14 then "e" else "f"

/-- Escape of one character inside a JSON string literal (ECMA-262
QuoteJSONString). -/
def quoteChar (c : Char) : String :=
  if c = '"' then "\\\""
  else if c = '\\' then "\\\\"
  else if c = '\n' then "\\n"
  else if c = '\r' then "\\r"
  else if c = '\t' then "\\t"
  else if c = Char.ofNat 8 then "\\b"
  else if c = Char.ofNat 12 then "\\f"
  else if c.toNat < 32 then "\\u00" ++ hexDigit (c.toNat / 16) ++ hexDigit (c.toNat % 16)
  else String.singleton c

/-- ECMA-262 QuoteJSONString: a JSON string literal for `s`. -/
def jsonQuote (s : String) : String :=
  "\"" ++ String.join (s.data.map quoteChar) ++ "\""

/-- Outcome of `JSON.stringify(v)`: a string, the value `undefined`
(for a top-level `undefined`), or a thrown `TypeError` (circular structure). -/
inductive SRes where
  | str (s : String)
  | undef
  | thrown
deriving DecidableEq, Repr

mutual
/-- ECMA-262 `JSON.stringify` (no replacer, no space) on the modelled values:
`undefined` serializes to nothing (skipped in objects, `null` in arrays),
and reaching an object that participates in a reference cycle throws a
`TypeError`. -/
def jsonSer : JSValue → SRes
  | vNull => .str "null"
  | vUndef => .undef
  | vBool b => .str (if b then "true" else "false")
  | vNum n => .str (toString n)
  | vStr s => .str (jsonQuote s)
  | vArr xs =>
      match jsonSerItems xs with
      | none => .thrown
      | some items => .str ("[" ++ joinStrings "," items ++ "]")
  | vObj fs =>
      match jsonSerFields fs with
      | none => .thrown
      | some members => .str ("\x7b" ++ joinStrings "," members ++ "\x7d")
  | vCyc _ => .thrown

def jsonSerItems : JSArr → Option (List String)
  | .nil => some []
  | .cons x xs =>
      match jsonSer x, jsonSerItems xs with
      | .thrown, _ => none
      | _, none => none
      | .undef, some rest => some ("null" :: rest)
      | .str s, some rest => some (s :: rest)

def jsonSerFields : JSFields → Option (List String)
  | .nil => some []
  | .cons k v fs =>
      match jsonSer v, jsonSerFields fs with
      | .thrown, _ => none
      | _, none => none
      | .undef, some rest => some rest
      | .str s, some rest => some ((jsonQuote k ++ ":" ++ s) :: rest)
end

/-- The message of the `TypeError` thrown by `JSON.stringify` on a circular
structure, as `String(err)` renders it. -/
def circularMsg : String := "TypeError: Converting circular structure to JSON"

/-- Value stored into a `text:` slot by `text: JSON.stringify(x)`: the
serialized string, the value `undefined` when serialization produces none, or
a thrown exception. -/
def jsonToText (v : JSValue) : Except String JSValue :=
  match jsonSer v with
  | .str s => .ok (vStr s)
  | .undef => .ok vUndef
  | .thrown => .error circularMsg

mutual
/-- Whether a value's object graph is free of reference cycles, i.e. whether
`JSON.stringify` can serialize it without the cycle check firing. -/
def cycFree : JSValue → Bool
  | vArr xs => arrCycFree xs
  | vObj fs => fieldsCycFree fs
  | vCyc _ => false
  | _ => true

def arrCycFree : JSArr → Bool
  | .nil => true
  | .cons x xs => cycFree x && arrCycFree xs

def fieldsCycFree : JSFields → Bool
  | .nil => true
  | .cons _ v fs => cycFree v && fieldsCycFree fs
end

/-! ## ToolResult envelopes -/

/-- One content block of a tool result; the server only ever builds blocks
with `type: "text"`.  The `text` slot holds the assigned JavaScript value
(`JSON.stringify` can produce `undefined`, which is stored as-is). -/
structure ContentBlock where
  type : String
  text : JSValue
deriving DecidableEq, Repr

/-- The `{ content, isError }` envelope every tool invocation resolves to;
an absent `isError` is recorded as `false`. -/
structure ToolResult where
  content : List ContentBlock
  isError : Bool
deriving DecidableEq, Repr

/-- Envelope with a single text block, as every handler builds it. -/
def mkTextResult (t : JSValue) (isErr : Bool) : ToolResult :=
  { content := [{ type := "text", text := t }], isError := isErr }

/-! ## reportAirtopErrors (src/mcp-server.ts)

```
export function reportAirtopErrors(errors: AirtopError[] | Issue[]) {
  try { console.error("Airtop API returned errors:", errors); } catch (_) {}
  const formatted =
    Array.isArray(errors) && errors.length > 0
      ? errors
          .map((e) => {
            if (!e) return "Unknown error (empty)";
            if (typeof e === "string") return e;
            // @ts-ignore
            return e.message ?? JSON.stringify(e);
          })
          .join("\n")
      : String(errors);
  return {
    content: [{ type: "text", text: `Errors from the API:\n` + formatted }],
    isError: true,
  };
}
```

The guarded `console.error` has no observable effect and is not modelled.
`mapErrElem` is the arrow function passed to `map`; it returns the raw mapped
value (`e.message` need not be a string — `join` converts it later). -/

def mapErrElem (e : JSValue) : Except String JSValue :=
  if jsTruthy e = false then .ok (vStr "Unknown error (empty)")
  else
    match e with
    | vStr _ => .ok e
    | _ =>
      match jsProp e "message" with
      | vNull =>
          match jsonSer e with
          | .str s => .ok (vStr s)
          | .undef => .ok vUndef
          | .thrown => .error circularMsg
      | vUndef =>
          match jsonSer e with
          | .str s => .ok (vStr s)
          | .undef => .ok vUndef
          | .thrown => .error circularMsg
      | m => .ok m

/-- `errors.map(...)`, evaluating elements left to right with the first thrown
exception aborting the whole call. -/
def mapErrList : JSArr → Except String (List JSValue)
  | .nil => .ok []
  | .cons x xs =>
      match mapErrElem x with
      | .error e => .error e
      | .ok v =>
          match mapErrList xs with
          | .error e => .error e
          | .ok vs => .ok (v :: vs)

/-- `mapped.join("\n")`. -/
def joinWithNewline (l : List JSValue) : String :=
  joinStrings "\n" (l.map (fun v => if isNullish v then "" else jsToString v))

/-- Computation of the `formatted` string, including any exception it throws. -/
def formattedOf (errors : JSValue) : Except String String :=
  match errors with
  | vArr xs =>
      if 0 < xs.length then
        match mapErrList xs with
        | .error e => .error e
        | .ok mapped => .ok (joinWithNewline mapped)
      else .ok (jsToString errors)
  | _ => .ok (jsToString errors)

/-- The error normalizer `reportAirtopErrors`.  A `.error` outcome is an
exception escaping the function. -/
def reportAirtopErrors (errors : JSValue) : Except String ToolResult :=
  match formattedOf errors with
  | .error e => .error e
  | .ok formatted =>
      .ok (mkTextResult (vStr ("Errors from the API:\n" ++ formatted)) true)

example :
    reportAirtopErrors (jArr [vNull, vStr "boom", jObj [("message", vStr "x")], jObj []]) =
      .ok (mkTextResult
        (vStr "Errors from the API:\nUnknown error (empty)\nboom\nx\n\x7b\x7d") true) := rfl

example : reportAirtopErrors (jArr []) =
    .ok (mkTextResult (vStr "Errors from the API:\n") true) := rfl

example : reportAirtopErrors (vArr (.cons (vCyc .nil) .nil)) = .error circularMsg := rfl

/-! ## Session registry (src/mcp-server.ts)

`const sessionRegistry = new Map<string, SessionMetadata>();`

The registry is modelled as an association list; `mapSet` / `mapDelete` /
`mapGet` follow the documented semantics of `Map.prototype.set`, `delete` and
`get`.  Key equality is SameValueZero; on the modelled value trees it is
structural equality, which agrees with SameValueZero on all primitive keys
(every key the server uses is a string).  A registry built by `mapSet` never
holds two entries with the same key, so removing every matching entry
coincides with `Map.prototype.delete`. -/

structure SessionMetadata where
  sessionId : JSValue
  profileName : JSValue
  createdAt : Nat
deriving DecidableEq, Repr

abbrev SessionRegistry := List (JSValue × SessionMetadata)

/-- `Map.prototype.set`: update the existing entry in place, else append. -/
def mapSet (m : SessionRegistry) (k : JSValue) (v : SessionMetadata) : SessionRegistry :=
  match m with
  | [] => [(k, v)]
  | (k0, v0) :: rest => if k0 = k then (k0, v) :: rest else (k0, v0) :: mapSet rest k v

/-- `Map.prototype.delete`: afterwards no entry for `k` remains. -/
def mapDelete (m : SessionRegistry) (k : JSValue) : SessionRegistry :=
  m.filter (fun p => p.1 ≠ k)

/-- `Map.prototype.get`. -/
def mapGet (m : SessionRegistry) (k : JSValue) : Option SessionMetadata :=
  (m.find? (fun p => p.1 = k)).map (fun p => p.2)

/-! ## The Airtop backend interface

Each field is one method of the `AirtopClient` that a handler awaits.  The
result is the settled value of the promise: `.ok v` for a response value
(an arbitrary JavaScript value — the SDK's static types are not trusted by
the spec), `.error e` for a rejection/thrown exception. -/

structure Backend where
  sessionsCreate : Except String JSValue
  sessionsCreateWith : JSValue → Except String JSValue
  saveProfileOnTermination : JSValue → JSValue → Except String JSValue
  sessionsTerminate : JSValue → Except String JSValue
  windowsCreate : JSValue → JSValue → Except String JSValue
  windowsPageQuery : JSValue → JSValue → JSValue → Except String JSValue
  windowsGetWindowInfo : JSValue → JSValue → Except String JSValue
  windowsPaginatedExtraction : JSValue → JSValue → JSValue → Except String JSValue
  windowsClick : JSValue → JSValue → JSValue → Except String JSValue
  windowsScroll : JSValue → JSValue → JSValue → Except String JSValue
  windowsType : JSValue → JSValue → JSValue → Except String JSValue
  windowsScrapeContent : JSValue → JSValue → Except String JSValue
  windowsUploadFileAndSelectInput : JSValue → JSValue → JSValue → Except String JSValue
  windowsMonitor : JSValue → JSValue → JSValue → Except String JSValue

/-- Backend whose every method settles with the same outcome, used to
instantiate universally quantified theorems at concrete backends. -/
def constBackend (r : Except String JSValue) : Backend :=
  { sessionsCreate := r
    sessionsCreateWith := fun _ => r
    saveProfileOnTermination := fun _ _ => r
    sessionsTerminate := fun _ => r
    windowsCreate := fun _ _ => r
    windowsPageQuery := fun _ _ _ => r
    windowsGetWindowInfo := fun _ _ => r
    windowsPaginatedExtraction := fun _ _ _ => r
    windowsClick := fun _ _ _ => r
    windowsScroll := fun _ _ _ => r
    windowsType := fun _ _ _ => r
    windowsScrapeContent := fun _ _ => r
    windowsUploadFileAndSelectInput := fun _ _ _ => r
    windowsMonitor := fun _ _ _ => r }

/-! ## Tool handlers (src/mcp-server.ts)

A handler receives the backend, the current time (`new Date()` is modelled by
a `Nat` timestamp), the already-validated argument object and the session
registry; it produces the handler's outcome (result or thrown exception) and
the registry state afterwards.  The registry is a process-global `Map`, so a
mutation performed before a throw survives the throw. -/

abbrev HandlerFn :=
  Backend → Nat → JSValue → SessionRegistry → (Except String ToolResult) × SessionRegistry

/-- Success envelope `{ content: [{ type: "text", text: JSON.stringify(d) }] }`. -/
def successJson (d : JSValue) : Except String ToolResult :=
  match jsonToText d with
  | .error e => .error e
  | .ok t => .ok (mkTextResult t false)

/-- A `try { body } catch (err) { return errorEnvelope(String(err)) }` block
whose catch returns an error envelope with the given message text ahead of
`String(err)`. -/
def tryWrap (body : Except String ToolResult) (msgHead : String) : Except String ToolResult :=
  match body with
  | .ok r => .ok r
  | .error e => .ok (mkTextResult (vStr (msgHead ++ e)) true)

/-- Body of the `createSession` handler. -/
def createSessionBody (b : Backend) : Except String ToolResult :=
  match b.sessionsCreate with
  | .error e => .error e
  | .ok session =>
    match jsGetStrict session "errors" with
    | .error e => .error e
    | .ok errs =>
      if jsTruthy errs then reportAirtopErrors errs
      else
        match jsGetStrict session "data" with
        | .error e => .error e
        | .ok d => successJson d

/-- Handler of `createSession`. -/
def createSessionHandler : HandlerFn := fun b _ _ reg => (createSessionBody b, reg)

/-- Handler of `createSessionWithOptions`.  `sessionRequest` is
`configuration ? { configuration } : {}`; on success with a truthy
`session.data?.id` and `configuration?.profileName` the session registry is
populated and `saveProfileOnTermination` is attempted inside a `try` whose
`catch` only logs, so its outcome is discarded. -/
def createSessionWithOptionsHandler : HandlerFn := fun b now args reg =>
  let configuration := jsQGet args "configuration"
  let sessionRequest :=
    if jsTruthy configuration then jObj [("configuration", configuration)] else jObj []
  match b.sessionsCreateWith sessionRequest with
  | .error e => (.error e, reg)
  | .ok session =>
    match jsGetStrict session "errors" with
    | .error e => (.error e, reg)
    | .ok errs =>
      if jsTruthy errs then (reportAirtopErrors errs, reg)
      else
        match jsGetStrict session "data" with
        | .error e => (.error e, reg)
        | .ok d =>
          let idv := jsQGet d "id"
          let pn := jsQGet configuration "profileName"
          let reg2 :=
            if jsTruthy idv && jsTruthy pn then
              mapSet reg idv { sessionId := idv, profileName := pn, createdAt := now }
            else reg
          (successJson d, reg2)

/-- Body of the `createWindow` handler (`window.errors?.length` guards the
error path). -/
def createWindowBody (b : Backend) (args : JSValue) : Except String ToolResult :=
  match b.windowsCreate (jsQGet args "sessionId") (jObj [("url", jsQGet args "url")]) with
  | .error e => .error e
  | .ok window =>
    match jsGetStrict window "errors" with
    | .error e => .error e
    | .ok errs =>
      if jsTruthy (jsQGet errs "length") then reportAirtopErrors errs
      else
        match jsGetStrict window "data" with
        | .error e => .error e
        | .ok d => successJson d

/-- Handler of `createWindow`. -/
def createWindowHandler : HandlerFn := fun b _ args reg => (createWindowBody b args, reg)

/-- Body of the `try` block of the `pageQuery` handler (`contentSummary?.errors`
guards the error path, `contentSummary.data` is a plain access). -/
def pageQueryBody (b : Backend) (args : JSValue) : Except String ToolResult :=
  match b.windowsPageQuery (jsQGet args "sessionId") (jsQGet args "windowId")
      (jObj [("prompt", jsQGet args "prompt")]) with
  | .error e => .error e
  | .ok contentSummary =>
    if jsTruthy (jsQGet contentSummary "errors") then
      reportAirtopErrors (jsQGet contentSummary "errors")
    else
      match jsGetStrict contentSummary "data" with
      | .error e => .error e
      | .ok d => successJson d

/-- Handler of `pageQuery`; its body is wrapped in `try/catch`, the catch
returning an internal-error envelope built from `String(err)`. -/
def pageQueryHandler : HandlerFn := fun b _ args reg =>
  (tryWrap (pageQueryBody b args) "Internal error during pageQuery: ", reg)

/-- Handler of `terminateSession`: the registry entry is deleted before the
backend `terminate` call is awaited. -/
def terminateSessionHandler : HandlerFn := fun b _ args reg =>
  let sid := jsQGet args "sessionId"
  let reg2 := mapDelete reg sid
  match b.sessionsTerminate sid with
  | .error e => (.error e, reg2)
  | .ok _ => (.ok (mkTextResult (vStr "Session terminated successfully") false), reg2)

/-- Body of the `getWindowInfo` handler (same shape as `createWindow`). -/
def getWindowInfoBody (b : Backend) (args : JSValue) : Except String ToolResult :=
  match b.windowsGetWindowInfo (jsQGet args "sessionId") (jsQGet args "windowId") with
  | .error e => .error e
  | .ok window =>
    match jsGetStrict window "errors" with
    | .error e => .error e
    | .ok errs =>
      if jsTruthy (jsQGet errs "length") then reportAirtopErrors errs
      else
        match jsGetStrict window "data" with
        | .error e => .error e
        | .ok d => successJson d

/-- Handler of `getWindowInfo`. -/
def getWindowInfoHandler : HandlerFn := fun b _ args reg => (getWindowInfoBody b args, reg)

/-- Body of the `paginatedExtraction` handler: the whole response is
serialized, with no error-collection check. -/
def paginatedExtractionBody (b : Backend) (args : JSValue) : Except String ToolResult :=
  match b.windowsPaginatedExtraction (jsQGet args "sessionId") (jsQGet args "windowId")
      (jObj [("prompt", jsQGet args "prompt"),
             ("configuration", jObj [("outputSchema", jsQGet args "outputSchema")])]) with
  | .error e => .error e
  | .ok data => successJson data

/-- Handler of `paginatedExtraction`. -/
def paginatedExtractionHandler : HandlerFn := fun b _ args reg =>
  (paginatedExtractionBody b args, reg)

/-- Body of the `try` block of the `click` handler; the request carries the
coordinate only when one was supplied (the `clickRequest` conditional is
computed just before the `try`), and `result?.errors` guards the error path. -/
def clickBody (b : Backend) (args : JSValue) : Except String ToolResult :=
  match b.windowsClick (jsQGet args "sessionId") (jsQGet args "windowId")
      (if jsTruthy (jsQGet args "coordinate") then
        jObj [("coordinate", jsQGet args "coordinate"),
              ("elementDescription", jsQGet args "elementDescription")]
      else jObj [("elementDescription", jsQGet args "elementDescription")]) with
  | .error e => .error e
  | .ok result =>
    if jsTruthy (jsQGet result "errors") then reportAirtopErrors (jsQGet result "errors")
    else
      match jsGetStrict result "data" with
      | .error e => .error e
      | .ok d => successJson d

/-- Handler of `click`. -/
def clickHandler : HandlerFn := fun b _ args reg =>
  (tryWrap (clickBody b args) "Internal error during click: ", reg)

/-- Body of the `scroll` handler (no `try/catch`; `result.errors` is a plain
access). -/
def scrollBody (b : Backend) (args : JSValue) : Except String ToolResult :=
  match b.windowsScroll (jsQGet args "sessionId") (jsQGet args "windowId")
      (if jsTruthy (jsQGet args "elementDescription") then
        jObj [("scrollToElement", jsQGet args "elementDescription")]
      else jObj []) with
  | .error e => .error e
  | .ok result =>
    match jsGetStrict result "errors" with
    | .error e => .error e
    | .ok errs =>
      if jsTruthy errs then reportAirtopErrors errs
      else
        match jsGetStrict result "data" with
        | .error e => .error e
        | .ok d => successJson d

/-- Handler of `scroll`. -/
def scrollHandler : HandlerFn := fun b _ args reg => (scrollBody b args, reg)

/-- Body of the `type` handler (request spreads `elementDescription` only
when truthy). -/
def typeBody (b : Backend) (args : JSValue) : Except String ToolResult :=
  match b.windowsType (jsQGet args "sessionId") (jsQGet args "windowId")
      (if jsTruthy (jsQGet args "elementDescription") then
        jObj [("text", jsQGet args "text"),
              ("elementDescription", jsQGet args "elementDescription")]
      else jObj [("text", jsQGet args "text")]) with
  | .error e => .error e
  | .ok result =>
    match jsGetStrict result "errors" with
    | .error e => .error e
    | .ok errs =>
      if jsTruthy errs then reportAirtopErrors errs
      else
        match jsGetStrict result "data" with
        | .error e => .error e
        | .ok d => successJson d

/-- Handler of `type`. -/
def typeHandler : HandlerFn := fun b _ args reg => (typeBody b args, reg)

/-- Body of the `try` block of the `scrape` handler (`result?.errors`). -/
def scrapeBody (b : Backend) (args : JSValue) : Except String ToolResult :=
  match b.windowsScrapeContent (jsQGet args "sessionId") (jsQGet args "windowId") with
  | .error e => .error e
  | .ok result =>
    if jsTruthy (jsQGet result "errors") then reportAirtopErrors (jsQGet result "errors")
    else
      match jsGetStrict result "data" with
      | .error e => .error e
      | .ok d => successJson d

/-- Handler of `scrape`. -/
def scrapeHandler : HandlerFn := fun b _ args reg =>
  (tryWrap (scrapeBody b args) "Internal error during scrape: ", reg)

/-- Body of the `try` block of the `fileInput` handler: on success the
envelope carries a serialized `{ fileId, success, message }` object. -/
def fileInputBody (b : Backend) (args : JSValue) : Except String ToolResult :=
  match b.windowsUploadFileAndSelectInput (jsQGet args "sessionId") (jsQGet args "windowId")
      (jObj [("elementDescription", jsQGet args "elementDescription"),
             ("uploadFilePath", jsQGet args "filePath")]) with
  | .error e => .error e
  | .ok result =>
    match jsGetStrict result "fileId" with
    | .error e => .error e
    | .ok fid =>
      successJson (jObj [("fileId", fid), ("success", vBool true),
                         ("message", vStr "File uploaded successfully")])

/-- Handler of `fileInput`. -/
def fileInputHandler : HandlerFn := fun b _ args reg =>
  (tryWrap (fileInputBody b args) "File upload failed: ", reg)

/-- Body of the `monitorForCondition` handler (`timeoutSeconds = 30`
destructuring default; the request uses `timeThresholdSeconds`). -/
def monitorForConditionBody (b : Backend) (args : JSValue) : Except String ToolResult :=
  match b.windowsMonitor (jsQGet args "sessionId") (jsQGet args "windowId")
      (jObj [("condition", jsQGet args "condition"),
             ("timeThresholdSeconds",
              if jsQGet args "timeoutSeconds" = vUndef then vNum 30
              else jsQGet args "timeoutSeconds")]) with
  | .error e => .error e
  | .ok result =>
    match jsGetStrict result "errors" with
    | .error e => .error e
    | .ok errs =>
      if jsTruthy errs then reportAirtopErrors errs
      else
        match jsGetStrict result "data" with
        | .error e => .error e
        | .ok d => successJson d

/-- Handler of `monitorForCondition`. -/
def monitorForConditionHandler : HandlerFn := fun b _ args reg =>
  (monitorForConditionBody b args, reg)

/-! ## Input schemas

The zod schemas declared at tool registration, modelled as acceptance
predicates: `z.object` accepts a non-array object, `z.string()` a string,
`z.number()` a number, `.optional()` additionally accepts `undefined`
(an absent key reads as `undefined`); unknown keys are stripped, hence
unconstrained. -/

def isStringV : JSValue → Bool
  | vStr _ => true
  | _ => false

def isNumberV : JSValue → Bool
  | vNum _ => true
  | _ => false

def isBoolV : JSValue → Bool
  | vBool _ => true
  | _ => false

/-- Values `z.object` accepts: a (possibly cyclic) plain object. -/
def isObjectLike : JSValue → Bool
  | vObj _ => true
  | vCyc _ => true
  | _ => false

/-- Acceptance of `.optional()`: `undefined` or a value the base schema accepts. -/
def optV (p : JSValue → Bool) (v : JSValue) : Bool :=
  match v with
  | vUndef => true
  | _ => p v

def allStringsArr : JSArr → Bool
  | .nil => true
  | .cons x xs => isStringV x && allStringsArr xs

/-- Acceptance of `z.array(z.string())`. -/
def isStringArrayV : JSValue → Bool
  | vArr xs => allStringsArr xs
  | _ => false

/-- The `configuration` object schema of `createSessionWithOptions`. -/
def configurationSchema (c : JSValue) : Bool :=
  isObjectLike c
    && optV isStringV (jsQGet c "profileName")
    && optV (fun p => isBoolV p || isObjectLike p) (jsQGet c "proxy")
    && optV isBoolV (jsQGet c "solveCaptcha")
    && optV isNumberV (jsQGet c "timeoutMinutes")
    && optV isStringArrayV (jsQGet c "extensionIds")
    && optV isStringV (jsQGet c "baseProfileId")

def createSessionWithOptionsSchema (v : JSValue) : Bool :=
  isObjectLike v && optV configurationSchema (jsQGet v "configuration")

def createWindowSchema (v : JSValue) : Bool :=
  isObjectLike v && isStringV (jsQGet v "sessionId") && isStringV (jsQGet v "url")

def pageQuerySchema (v : JSValue) : Bool :=
  isObjectLike v && isStringV (jsQGet v "sessionId") && isStringV (jsQGet v "windowId")
    && isStringV (jsQGet v "prompt")

def terminateSessionSchema (v : JSValue) : Bool :=
  isObjectLike v && isStringV (jsQGet v "sessionId")

def getWindowInfoSchema (v : JSValue) : Bool :=
  isObjectLike v && isStringV (jsQGet v "sessionId") && isStringV (jsQGet v "windowId")

def paginatedExtractionSchema (v : JSValue) : Bool :=
  isObjectLike v && isStringV (jsQGet v "sessionId") && isStringV (jsQGet v "windowId")
    && isStringV (jsQGet v "prompt") && optV isStringV (jsQGet v "outputSchema")

def coordinateSchema (c : JSValue) : Bool :=
  isObjectLike c && isNumberV (jsQGet c "x") && isNumberV (jsQGet c "y")

def clickSchema (v : JSValue) : Bool :=
  isObjectLike v && isStringV (jsQGet v "sessionId") && isStringV (jsQGet v "windowId")
    && isStringV (jsQGet v "elementDescription") && optV coordinateSchema (jsQGet v "coordinate")

def scrollSchema (v : JSValue) : Bool :=
  isObjectLike v && isStringV (jsQGet v "sessionId") && isStringV (jsQGet v "windowId")
    && optV isStringV (jsQGet v "elementDescription")

def typeSchema (v : JSValue) : Bool :=
  isObjectLike v && isStringV (jsQGet v "sessionId") && isStringV (jsQGet v "windowId")
    && isStringV (jsQGet v "text") && optV isStringV (jsQGet v "elementDescription")

def scrapeSchema (v : JSValue) : Bool :=
  isObjectLike v && isStringV (jsQGet v "sessionId") && isStringV (jsQGet v "windowId")

def fileInputSchema (v : JSValue) : Bool :=
  isObjectLike v && isStringV (jsQGet v "sessionId") && isStringV (jsQGet v "windowId")
    && isStringV (jsQGet v "elementDescription") && isStringV (jsQGet v "filePath")

def monitorForConditionSchema (v : JSValue) : Bool :=
  isObjectLike v && isStringV (jsQGet v "sessionId") && isStringV (jsQGet v "windowId")
    && isStringV (jsQGet v "condition") && optV isNumberV (jsQGet v "timeoutSeconds")

/-! ## Tool registry

Each `server.tool(...)` call in `createMcpServer` registers one tool.
`createSession` is registered without an input schema. -/

structure Tool where
  name : String
  schema : Option (JSValue → Bool)
  handler : HandlerFn

def createSessionTool : Tool :=
  { name := "createSession", schema := none, handler := createSessionHandler }

def createSessionWithOptionsTool : Tool :=
  { name := "createSessionWithOptions", schema := some createSessionWithOptionsSchema,
    handler := createSessionWithOptionsHandler }

def createWindowTool : Tool :=
  { name := "createWindow", schema := some createWindowSchema, handler := createWindowHandler }

def pageQueryTool : Tool :=
  { name := "pageQuery", schema := some pageQuerySchema, handler := pageQueryHandler }

def terminateSessionTool : Tool :=
  { name := "terminateSession", schema := some terminateSessionSchema,
    handler := terminateSessionHandler }

def getWindowInfoTool : Tool :=
  { name := "getWindowInfo", schema := some getWindowInfoSchema, handler := getWindowInfoHandler }

def paginatedExtractionTool : Tool :=
  { name := "paginatedExtraction", schema := some paginatedExtractionSchema,
    handler := paginatedExtractionHandler }

def clickTool : Tool :=
  { name := "click", schema := some clickSchema, handler := clickHandler }

def scrollTool : Tool :=
  { name := "scroll", schema := some scrollSchema, handler := scrollHandler }

def typeTool : Tool :=
  { name := "type", schema := some typeSchema, handler := typeHandler }

def scrapeTool : Tool :=
  { name := "scrape", schema := some scrapeSchema, handler := scrapeHandler }

def fileInputTool : Tool :=
  { name := "fileInput", schema := some fileInputSchema, handler := fileInputHandler }

def monitorForConditionTool : Tool :=
  { name := "monitorForCondition", schema := some monitorForConditionSchema,
    handler := monitorForConditionHandler }

/-- The thirteen tools of `createMcpServer`, in registration order. -/
def airtopTools : List Tool :=
  [createSessionTool, createSessionWithOptionsTool, createWindowTool, pageQueryTool,
   terminateSessionTool, getWindowInfoTool, paginatedExtractionTool, clickTool,
   scrollTool, typeTool, scrapeTool, fileInputTool, monitorForConditionTool]

/-- Execution of a handler behind the registry boundary.  Modelled from the
spec: any exception raised by the handler is caught at this boundary and
converted into an error `ToolResult`, so the caller of `invoke` never
observes an exception.  (The boundary lives in the MCP SDK, outside this
repository's sources.) -/
def runHandler (t : Tool) (b : Backend) (now : Nat) (raw : JSValue) (reg : SessionRegistry) :
    ToolResult × SessionRegistry :=
  match t.handler b now raw reg with
  | (.ok r, reg2) => (r, reg2)
  | (.error e, reg2) => (mkTextResult (vStr ("Error: " ++ e)) true, reg2)

/-- Dispatch of one tool invocation.  Modelled from the spec: lookup of the
registered tool by name; if the tool declares a schema, the raw input is
validated first and a failure yields an `isError` envelope with a
human-readable message, without calling the handler; otherwise the handler
runs behind the exception-catching boundary. -/
def invoke (tools : List Tool) (b : Backend) (now : Nat) (name : String) (raw : JSValue)
    (reg : SessionRegistry) : ToolResult × SessionRegistry :=
  match tools.find? (fun t => t.name = name) with
  | none => (mkTextResult (vStr ("Tool " ++ name ++ " not found")) true, reg)
  | some t =>
    match t.schema with
    | none => runHandler t b now raw reg
    | some validate =>
      if validate raw then runHandler t b now raw reg
      else (mkTextResult (vStr ("Invalid arguments for tool " ++ name)) true, reg)

/-- Whether the tool's declared schema (if any) accepts the raw input. -/
def schemaAccepts (t : Tool) (raw : JSValue) : Bool :=
  match t.schema with
  | none => true
  | some validate => validate raw

/-- Replacement of the handler of the tool named `name`, leaving its name and
schema unchanged (used to state that a rejected input never reaches any
handler). -/
def replaceHandler (name : String) (h : HandlerFn) (t : Tool) : Tool :=
  if t.name = name then { t with handler := h } else t

/-! ## Transport gateway, multi-client streaming mode (src/server.ts)

```
const transports: { [sessionId: string]: SSEServerTransport } = {};
app.get("/sse", async (_, res) => {
  const transport = new SSEServerTransport("/messages", res);
  transports[transport.sessionId] = transport;
  res.on("close", () => { delete transports[transport.sessionId]; });
  await server.connect(transport);
});
app.post("/messages", async (req, res) => {
  const sessionId = req.query.sessionId as string;
  const transport = transports[sessionId];
  if (transport) { await transport.handlePostMessage(req, res); }
  else { res.status(400).send("No transport found for sessionId"); }
});
```

Modelled from the spec for the identifier source: `new SSEServerTransport`
(MCP SDK) assigns each stream a fresh session id never equal to an earlier
one; the model allocates ids from a counter.  A transport object is in
one-to-one correspondence with its id, so the registry is modelled by its
ordered key list. -/

structure Gateway where
  nextId : Nat
  transports : List Nat
deriving DecidableEq, Repr

/-- Gateway state at startup: an empty `transports` object. -/
def Gateway.init : Gateway := { nextId := 0, transports := [] }

/-- Effect of `GET /sse`: a fresh transport is created and registered under
its own session id. -/
def sseOpen (g : Gateway) : Gateway :=
  { nextId := g.nextId + 1, transports := g.transports ++ [g.nextId] }

/-- Effect of the `close` notification of the stream with id `cid`:
`delete transports[transport.sessionId]`. -/
def closeConn (g : Gateway) (cid : Nat) : Gateway :=
  { g with transports := g.transports.filter (fun x => x ≠ cid) }

/-- Response of `POST /messages?sessionId=...`: either the message is handed
to the registered transport for that id, or a 400 response is sent and
nothing is dispatched. -/
inductive PostOutcome where
  | dispatched (cid : Nat)
  | clientError (status : Nat) (body : String)
deriving DecidableEq, Repr

def postMessages (g : Gateway) (sessionId : Nat) : PostOutcome :=
  if g.transports.contains sessionId then .dispatched sessionId
  else .clientError 400 "No transport found for sessionId"

/-- One observable gateway event: an `/sse` stream opening, or the close
notification of the stream that was given id `cid`. -/
inductive GEvent where
  | sseRequest
  | closeNotification (cid : Nat)
deriving DecidableEq, Repr

def gatewayStep (g : Gateway) : GEvent → Gateway
  | .sseRequest => sseOpen g
  | .closeNotification cid => closeConn g cid

def gatewayRun (g : Gateway) (evs : List GEvent) : Gateway :=
  evs.foldl gatewayStep g

/-- The scenario of the streaming-mode property: from startup, `n` streams
open and then the streams with ids in `closes` receive their close
notifications. -/
def gatewayScenario (n : Nat) (closes : List Nat) : Gateway :=
  gatewayRun Gateway.init
    (List.replicate n GEvent.sseRequest ++ closes.map GEvent.closeNotification)

/-! ## Startup logic (src/server.ts)

```
export const PORT = 3456; // Unique port number
export async function main() {
  if (process.argv.includes("--help") || process.argv.includes("-h")) { ...; process.exit(0); }
  if (process.argv.includes("--version") || process.argv.includes("-v")) { ...; process.exit(0); }
  const apiKey = process.env.AIRTOP_API_KEY;
  if (!apiKey) { throw new Error("AIRTOP_API_KEY environment variable is required"); }
  const server = createMcpServer(apiKey, PORT);
  const listen = process.argv.includes("--listen");
  if (listen) { ... app.listen(PORT); ... } else { ... }
}
main().catch(console.error);
```

`process.env.PORT` is never read anywhere in the sources; the environment is
still part of the model so that its irrelevance is a provable statement. -/

structure Env where
  airtopApiKey : Option String
  portVar : Option String
deriving DecidableEq, Repr

def PORT : Nat := 3456

inductive MainOutcome where
  | exited (code : Nat)
  | threw (msg : String)
  | started (listening : Bool)
deriving DecidableEq, Repr

/-- Control flow of `main()` up to the point where a server is running. -/
def mainRun (argv : List String) (env : Env) : MainOutcome :=
  if argv.contains "--help" || argv.contains "-h" then .exited 0
  else if argv.contains "--version" || argv.contains "-v" then .exited 0
  else
    match env.airtopApiKey with
    | none => .threw "AIRTOP_API_KEY environment variable is required"
    | some _ => .started (argv.contains "--listen")

/-- Exit code of the process: `some c` when the process terminates during
startup, `none` while a server keeps running.  `main().catch(console.error)`
handles a rejection of `main()` by logging it; a handled rejection does not
set a non-zero exit code, so once the event loop drains, Node exits with the
default code 0 (modelled from documented Node.js process semantics). -/
def processExitCode (argv : List String) (env : Env) : Option Nat :=
  match mainRun argv env with
  | .exited c => some c
  | .threw _ => some 0
  | .started _ => none

/-- Port the HTTP gateway listens on, when one is started: `app.listen(PORT)`
with the compile-time constant `PORT`. -/
def serverListenPort (argv : List String) (env : Env) : Option Nat :=
  match mainRun argv env with
  | .started true => some PORT
  | _ => none

/-! ## Spec-side description of the error normalizer

These definitions restate, in the spec's own vocabulary, the per-element
mapping and the result shape that the spec attributes to the error
normalizer; the refinement theorem compares them with `reportAirtopErrors`
as embedded from the source. -/

/-- Per-element text as the spec describes it: a falsy element becomes the
literal `Unknown error (empty)`, a string element is used verbatim, an
element exposing a (non-nullish) `message` field contributes that message,
and any other element contributes its JSON serialization (an element whose
serialization is the `undefined` value contributes the empty string, as the
newline join renders `undefined`). -/
def specMapElem (e : JSValue) : String :=
  if jsTruthy e = false then "Unknown error (empty)"
  else
    match e with
    | vStr s => s
    | _ =>
      match jsProp e "message" with
      | vNull => match jsonSer e with | .str s => s | _ => ""
      | vUndef => match jsonSer e with | .str s => s | _ => ""
      | m => jsToString m

/-- Result envelope as the spec describes it: the fixed banner, a newline,
and the per-element texts joined with newline separators, flagged as an
error. -/
def specNormalize (elems : List JSValue) : ToolResult :=
  mkTextResult
    (vStr ("Errors from the API:\n" ++ joinStrings "\n" (elems.map specMapElem))) true

/-- Consecutive identifiers `start, start+1, ..., start+k-1`, the ids the
counter hands to `k` consecutive stream openings. -/
def idRange (start k : Nat) : List Nat :=
  match k with
  | 0 => []
  | k + 1 => start :: idRange (start + 1) k

/-- Property of a tool that every normally-returned result envelope has a
non-empty content sequence. -/
def handlerContentOk (t : Tool) : Prop :=
  ∀ b now raw reg r reg2, t.handler b now raw reg = (.ok r, reg2) → r.content ≠ []

/-! ## Helper lemmas -/

theorem mapGet_mapDelete (reg : SessionRegistry) (k : JSValue) :
    mapGet (mapDelete reg k) k = none := by
  unfold mapGet mapDelete
  rw [Option.map_eq_none', List.find?_eq_none]
  intro p hp
  rw [List.mem_filter] at hp
  simpa using hp.2

theorem mapDelete_of_get_none {reg : SessionRegistry} {k : JSValue}
    (h : mapGet reg k = none) : mapDelete reg k = reg := by
  unfold mapGet at h
  rw [Option.map_eq_none', List.find?_eq_none] at h
  unfold mapDelete
  rw [List.filter_eq_self]
  intro p hp
  simpa using h p hp

theorem reportAirtopErrors_ok_content {e : JSValue} {r : ToolResult}
    (h : reportAirtopErrors e = .ok r) : r.content ≠ [] := by
  unfold reportAirtopErrors at h
  cases hf : formattedOf e with
  | error msg => rw [hf] at h; exact absurd h (by simp)
  | ok formatted =>
    rw [hf] at h
    have : mkTextResult (vStr ("Errors from the API:\n" ++ formatted)) true = r := by
      simpa using h
    rw [← this]
    simp [mkTextResult]

theorem successJson_ok_content {d : JSValue} {r : ToolResult}
    (h : successJson d = .ok r) : r.content ≠ [] := by
  unfold successJson at h
  cases ht : jsonToText d with
  | error msg => rw [ht] at h; exact absurd h (by simp)
  | ok t =>
    rw [ht] at h
    have : mkTextResult t false = r := by simpa using h
    rw [← this]
    simp [mkTextResult]

theorem isObjectLike_of_jsQGet_str {raw : JSValue} {key : String} {s : String}
    (h : jsQGet raw key = vStr s) (hk : key ≠ "length") : isObjectLike raw = true := by
  cases raw <;> simp_all [jsQGet, isNullish, jsProp, isObjectLike]

/-! ## Claim C7 -/

/-- C7: for the session registry, `release` (`Map.delete`) on a session id
that was never tracked is a no-op that leaves the registry unchanged, and for
every session id, `track` (`Map.set`) followed by `release` (`Map.delete`)
leaves `lookup` (`Map.get`) for that id returning absent. -/
theorem c7_session_registry_release :
    ∀ (reg : SessionRegistry) (k : JSValue) (v : SessionMetadata),
      (mapGet reg k = none → mapDelete reg k = reg) ∧
      mapGet (mapDelete (mapSet reg k v) k) k = none := by
  intro reg k v
  exact ⟨mapDelete_of_get_none, mapGet_mapDelete (mapSet reg k v) k⟩

/-- Witness for C7 at concrete registries: deleting the untracked id
`sess-9` from a one-entry registry leaves it unchanged, and tracking then
releasing `sess-1` leaves its lookup absent. -/
theorem c7_session_registry_release_witness :
    (mapDelete [(vStr "sess-0", ⟨vStr "sess-0", vStr "p", 4⟩)] (vStr "sess-9")
        = [(vStr "sess-0", ⟨vStr "sess-0", vStr "p", 4⟩)]) ∧
    mapGet (mapDelete (mapSet [] (vStr "sess-1") ⟨vStr "sess-1", vStr "q", 7⟩)
        (vStr "sess-1")) (vStr "sess-1") = none :=
  ⟨(c7_session_registry_release [(vStr "sess-0", ⟨vStr "sess-0", vStr "p", 4⟩)]
      (vStr "sess-9") ⟨vStr "sess-0", vStr "p", 4⟩).1 (by rfl),
   (c7_session_registry_release [] (vStr "sess-1") ⟨vStr "sess-1", vStr "q", 7⟩).2⟩

/-! ## Claim C10 -/

/-- C10: after any invocation of `terminateSession` with session id `s`, the
session registry holds no entry for `s`, whatever the backend call does —
the handler deletes the entry before awaiting `sessions.terminate`, so a
backend failure does not roll the removal back. -/
theorem c10_terminate_removes_entry :
    ∀ (b : Backend) (now : Nat) (raw : JSValue) (reg : SessionRegistry) (s : String),
      jsQGet raw "sessionId" = vStr s →
      mapGet (invoke airtopTools b now "terminateSession" raw reg).2 (vStr s) = none := by
  intro b now raw reg s h
  have hobj : isObjectLike raw = true := isObjectLike_of_jsQGet_str h (by decide)
  have hschema : terminateSessionSchema raw = true := by
    unfold terminateSessionSchema
    rw [h, hobj]
    rfl
  have hfind : airtopTools.find? (fun t => t.name = "terminateSession")
      = some terminateSessionTool := rfl
  unfold invoke
  rw [hfind]
  simp only [terminateSessionTool, runHandler, terminateSessionHandler, hschema, if_true, h]
  cases b.sessionsTerminate (vStr s) <;> simp [mapGet_mapDelete]

/-- Witness for C10: a backend whose `terminate` rejects, and a registry that
does hold an entry for the session; after the invocation the entry is gone. -/
theorem c10_terminate_removes_entry_witness :
    mapGet (invoke airtopTools (constBackend (.error "backend unavailable")) 0
        "terminateSession" (jObj [("sessionId", vStr "sess-1")])
        [(vStr "sess-1", ⟨vStr "sess-1", vStr "prof", 3⟩)]).2 (vStr "sess-1") = none :=
  c10_terminate_removes_entry (constBackend (.error "backend unavailable")) 0
    (jObj [("sessionId", vStr "sess-1")])
    [(vStr "sess-1", ⟨vStr "sess-1", vStr "prof", 3⟩)] "sess-1" (by rfl)

/-! ## Claim C3 -/

/-- C3: the claim says the error normalizer never throws, for every possible
input including self-referential objects; the code violates this.  For the
input `[o]` with `o = {}; o.self = o` (a circular object without a `message`
field), the per-element fallback `JSON.stringify(o)` throws a `TypeError`
that escapes `reportAirtopErrors`. -/
theorem c3_normalizer_throws_on_circular :
    reportAirtopErrors (vArr (.cons (vCyc .nil) .nil)) = .error circularMsg := rfl

/-! ## Claim C2 -/

/-- C2, counterexample to the claim as stated: the claim quantifies over
every input sequence, but for the sequence `["first error", o]` with `o` a
circular object, `reportAirtopErrors` throws instead of returning the banner
envelope. -/
theorem c2_counterexample_circular_element :
    reportAirtopErrors (jArr [vStr "first error", vCyc .nil]) = .error circularMsg := rfl

mutual
/-- On a value free of reference cycles, `JSON.stringify` does not throw. -/
theorem jsonSer_ok_of_cycFree (v : JSValue) (h : cycFree v = true) :
    jsonSer v ≠ SRes.thrown := by
  match v with
  | vNull | vUndef | vBool _ | vNum _ | vStr _ => simp [jsonSer]
  | vArr xs =>
    have hx : jsonSerItems xs ≠ none :=
      jsonSerItems_ok_of_cycFree xs (by simpa [cycFree] using h)
    unfold jsonSer
    cases hxx : jsonSerItems xs with
    | none => exact absurd hxx hx
    | some items => simp
  | vObj fs =>
    have hx : jsonSerFields fs ≠ none :=
      jsonSerFields_ok_of_cycFree fs (by simpa [cycFree] using h)
    unfold jsonSer
    cases hxx : jsonSerFields fs with
    | none => exact absurd hxx hx
    | some members => simp
  | vCyc _ => simp [cycFree] at h

theorem jsonSerItems_ok_of_cycFree (xs : JSArr) (h : arrCycFree xs = true) :
    jsonSerItems xs ≠ none := by
  match xs with
  | .nil => simp [jsonSerItems]
  | .cons x rest =>
    rw [arrCycFree, Bool.and_eq_true] at h
    have h1 := jsonSer_ok_of_cycFree x h.1
    have h2 := jsonSerItems_ok_of_cycFree rest h.2
    unfold jsonSerItems
    cases hx : jsonSer x with
    | thrown => exact absurd hx h1
    | undef =>
      cases hr : jsonSerItems rest with
      | none => exact absurd hr h2
      | some items => simp
    | str s =>
      cases hr : jsonSerItems rest with
      | none => exact absurd hr h2
      | some items => simp

theorem jsonSerFields_ok_of_cycFree (fs : JSFields) (h : fieldsCycFree fs = true) :
    jsonSerFields fs ≠ none := by
  match fs with
  | .nil => simp [jsonSerFields]
  | .cons k v rest =>
    rw [fieldsCycFree, Bool.and_eq_true] at h
    have h1 := jsonSer_ok_of_cycFree v h.1
    have h2 := jsonSerFields_ok_of_cycFree rest h.2
    unfold jsonSerFields
    cases hx : jsonSer v with
    | thrown => exact absurd hx h1
    | undef =>
      cases hr : jsonSerFields rest with
      | none => exact absurd hr h2
      | some members => simp
    | str s =>
      cases hr : jsonSerFields rest with
      | none => exact absurd hr h2
      | some members => simp
end

/-- On a cycle-free element, the map step of the normalizer returns a value
whose rendering inside `join("\n")` is exactly the element text the spec
describes. -/
theorem mapErrElem_spec (e : JSValue) (h : cycFree e = true) :
    ∃ v, mapErrElem e = .ok v ∧
      (if isNullish v then "" else jsToString v) = specMapElem e := by
  unfold mapErrElem specMapElem
  by_cases ht : jsTruthy e = false
  · exact ⟨vStr "Unknown error (empty)", by simp [ht, isNullish, jsToString]⟩
  · rw [if_neg ht, if_neg ht]
    match e with
    | vStr s => exact ⟨vStr s, rfl, rfl⟩
    | vNull => exact ⟨vStr "Unknown error (empty)", by simp [jsTruthy] at ht, by simp [jsTruthy] at ht⟩
    | vUndef => exact ⟨vStr "Unknown error (empty)", by simp [jsTruthy] at ht, by simp [jsTruthy] at ht⟩
    | vBool b =>
      have hser := jsonSer_ok_of_cycFree (vBool b) h
      cases hs : jsonSer (vBool b) with
      | thrown => exact absurd hs hser
      | undef => exact ⟨vUndef, by simp [jsProp, hs], by simp [jsProp, hs, isNullish]⟩
      | str s => exact ⟨vStr s, by simp [jsProp, hs], by simp [jsProp, hs, isNullish, jsToString]⟩
    | vNum n =>
      have hser := jsonSer_ok_of_cycFree (vNum n) h
      cases hs : jsonSer (vNum n) with
      | thrown => exact absurd hs hser
      | undef => exact ⟨vUndef, by simp [jsProp, hs], by simp [jsProp, hs, isNullish]⟩
      | str s => exact ⟨vStr s, by simp [jsProp, hs], by simp [jsProp, hs, isNullish, jsToString]⟩
    | vArr xs =>
      have hser := jsonSer_ok_of_cycFree (vArr xs) h
      cases hs : jsonSer (vArr xs) with
      | thrown => exact absurd hs hser
      | undef => exact ⟨vUndef, by simp [jsProp, hs], by simp [jsProp, hs, isNullish]⟩
      | str s => exact ⟨vStr s, by simp [jsProp, hs], by simp [jsProp, hs, isNullish, jsToString]⟩
    | vObj fs =>
      cases hm : jsProp (vObj fs) "message" with
      | vNull =>
        have hser := jsonSer_ok_of_cycFree (vObj fs) h
        cases hs : jsonSer (vObj fs) with
        | thrown => exact absurd hs hser
        | undef => exact ⟨vUndef, by simp, by simp [isNullish]⟩
        | str s => exact ⟨vStr s, by simp, by simp [isNullish, jsToString]⟩
      | vUndef =>
        have hser := jsonSer_ok_of_cycFree (vObj fs) h
        cases hs : jsonSer (vObj fs) with
        | thrown => exact absurd hs hser
        | undef => exact ⟨vUndef, by simp, by simp [isNullish]⟩
        | str s => exact ⟨vStr s, by simp, by simp [isNullish, jsToString]⟩
      | vBool b => exact ⟨vBool b, by simp, by simp [isNullish]⟩
      | vNum n => exact ⟨vNum n, by simp, by simp [isNullish]⟩
      | vStr s => exact ⟨vStr s, by simp, by simp [isNullish]⟩
      | vArr xs2 => exact ⟨vArr xs2, by simp, by simp [isNullish]⟩
      | vObj fs2 => exact ⟨vObj fs2, by simp, by simp [isNullish]⟩
      | vCyc fs2 => exact ⟨vCyc fs2, by simp, by simp [isNullish]⟩
    | vCyc fs => simp [cycFree] at h

/-- On a cycle-free element sequence, the normalizer's map does not throw and
its rendered texts are the spec's per-element texts. -/
theorem mapErrList_spec (xs : JSArr) (h : arrCycFree xs = true) :
    ∃ l, mapErrList xs = .ok l ∧
      l.map (fun v => if isNullish v then "" else jsToString v)
        = xs.toList.map specMapElem := by
  match xs with
  | .nil => exact ⟨[], rfl, rfl⟩
  | .cons x rest =>
    rw [arrCycFree, Bool.and_eq_true] at h
    obtain ⟨v, hv, hveq⟩ := mapErrElem_spec x h.1
    obtain ⟨l, hl, hleq⟩ := mapErrList_spec rest h.2
    refine ⟨v :: l, ?_, ?_⟩
    · unfold mapErrList
      rw [hv, hl]
    · simp [JSArr.toList, hveq, hleq]

/-- C2 (amended): for every input sequence whose elements are free of
reference cycles (JSON-serializable), the error normalizer maps each element
as the claim states — a falsy element becomes `Unknown error (empty)`, a
string element is used verbatim, an element exposing a non-nullish `message`
field contributes that message, any other element contributes its JSON
serialization — and returns `{content: [{type:"text", text}], isError: true}`
where `text` is the banner `Errors from the API:` followed by a newline and
the per-element texts joined with newline separators. -/
theorem c2_normalizer_matches_spec (xs : JSArr) (h : arrCycFree xs = true) :
    reportAirtopErrors (vArr xs) = .ok (specNormalize xs.toList) := by
  match xs with
  | .nil => rfl
  | .cons x rest =>
    obtain ⟨l, hl, hmap⟩ := mapErrList_spec (JSArr.cons x rest) h
    have hlen : 0 < (JSArr.cons x rest).length := by simp [JSArr.length]
    have hres : formattedOf (vArr (JSArr.cons x rest)) = .ok (joinWithNewline l) := by
      simp only [formattedOf, hlen, if_true, hl]
    unfold reportAirtopErrors
    rw [hres]
    unfold specNormalize joinWithNewline
    rw [hmap]

/-- Witness for C2 (amended) at the spec's own test vector
`[null, "plain string", {message:"x"}, {}]`. -/
theorem c2_normalizer_matches_spec_witness :
    reportAirtopErrors
        (vArr (JSArr.ofList [vNull, vStr "plain string", jObj [("message", vStr "x")], jObj []]))
      = .ok (specNormalize
          (JSArr.ofList [vNull, vStr "plain string", jObj [("message", vStr "x")], jObj []]).toList) :=
  c2_normalizer_matches_spec
    (JSArr.ofList [vNull, vStr "plain string", jObj [("message", vStr "x")], jObj []]) (by decide)

/-! ## Claim C5 -/

/-- C5: in streaming mode, a `POST /messages` whose `sessionId` does not
match a live entry of the connection registry is answered with HTTP 400 and
dispatches nothing, while a matching id hands the message to that entry's
transport. -/
theorem c5_post_messages_routing :
    ∀ (g : Gateway) (sid : Nat),
      (sid ∉ g.transports →
        postMessages g sid = .clientError 400 "No transport found for sessionId") ∧
      (sid ∈ g.transports → postMessages g sid = .dispatched sid) := by
  intro g sid
  constructor
  · intro h
    simp [postMessages, h]
  · intro h
    simp [postMessages, h]

/-- Witness for C5 on the registry holding ids 0 and 1: id 5 is rejected
with a 400, id 1 is dispatched. -/
theorem c5_post_messages_routing_witness :
    postMessages { nextId := 2, transports := [0, 1] } 5
        = .clientError 400 "No transport found for sessionId" ∧
    postMessages { nextId := 2, transports := [0, 1] } 1 = .dispatched 1 :=
  ⟨(c5_post_messages_routing { nextId := 2, transports := [0, 1] } 5).1 (by decide),
   (c5_post_messages_routing { nextId := 2, transports := [0, 1] } 1).2 (by decide)⟩

/-! ## Claim C6 -/

theorem idRange_length (s k : Nat) : (idRange s k).length = k := by
  induction k generalizing s with
  | zero => rfl
  | succ k ih => simp [idRange, ih]

theorem mem_idRange {x s k : Nat} : x ∈ idRange s k ↔ s ≤ x ∧ x < s + k := by
  induction k generalizing s with
  | zero => simp [idRange]
  | succ k ih =>
    simp [idRange, ih]
    omega

theorem idRange_nodup (s k : Nat) : (idRange s k).Nodup := by
  induction k generalizing s with
  | zero => simp [idRange]
  | succ k ih =>
    rw [idRange, List.nodup_cons]
    refine ⟨?_, ih (s + 1)⟩
    rw [mem_idRange]
    omega

theorem gatewayRun_append (g : Gateway) (evs1 evs2 : List GEvent) :
    gatewayRun g (evs1 ++ evs2) = gatewayRun (gatewayRun g evs1) evs2 := by
  simp [gatewayRun, List.foldl_append]

theorem gatewayRun_opens (k : Nat) :
    ∀ g : Gateway, gatewayRun g (List.replicate k .sseRequest)
      = { nextId := g.nextId + k, transports := g.transports ++ idRange g.nextId k } := by
  induction k with
  | zero => intro g; simp [gatewayRun, idRange]
  | succ k ih =>
    intro g
    rw [List.replicate_succ]
    have hstep : gatewayRun g (.sseRequest :: List.replicate k .sseRequest)
        = gatewayRun (sseOpen g) (List.replicate k .sseRequest) := rfl
    rw [hstep, ih]
    simp [sseOpen, idRange]
    omega

theorem gatewayRun_closes (closes : List Nat) :
    ∀ g : Gateway, gatewayRun g (closes.map GEvent.closeNotification)
      = { nextId := g.nextId,
          transports := closes.foldl (fun l c => l.filter (fun x => x ≠ c)) g.transports } := by
  induction closes with
  | nil => intro g; rfl
  | cons c cs ih =>
    intro g
    rw [List.map_cons]
    have hstep : gatewayRun g (.closeNotification c :: cs.map GEvent.closeNotification)
        = gatewayRun (closeConn g c) (cs.map GEvent.closeNotification) := rfl
    rw [hstep, ih]
    rfl

theorem foldl_filter_not_mem (closes : List Nat) :
    ∀ l : List Nat, closes.foldl (fun l c => l.filter (fun x => x ≠ c)) l
      = l.filter (fun x => x ∉ closes) := by
  induction closes with
  | nil => intro l; simp
  | cons c cs ih =>
    intro l
    rw [List.foldl_cons, ih, List.filter_filter]
    apply List.filter_congr
    intro x _
    by_cases hc : x = c <;> by_cases hcs : x ∈ cs <;> simp [hc, hcs]

/-- C6: the connection registry keeps at most one live entry per identifier;
opening a stream registers one fresh identifier and the close notification
removes exactly that entry, so after opening `n` streams and closing the
`m ≤ n` distinct streams named in `closes`, the registry has exactly `n - m`
entries, none of them for a closed connection, and no duplicated identifier. -/
theorem c6_connection_registry_count :
    ∀ (n : Nat) (closes : List Nat), closes.Nodup → (∀ i ∈ closes, i < n) →
      (gatewayScenario n closes).transports.length = n - closes.length ∧
      (∀ i ∈ closes, i ∉ (gatewayScenario n closes).transports) ∧
      (gatewayScenario n closes).transports.Nodup := by
  intro n closes hnd hlt
  have htr : (gatewayScenario n closes).transports
      = (idRange 0 n).filter (fun x => x ∉ closes) := by
    unfold gatewayScenario
    rw [gatewayRun_append, gatewayRun_opens, gatewayRun_closes, foldl_filter_not_mem]
    simp [Gateway.init]
  refine ⟨?_, ?_, ?_⟩
  · rw [htr]
    have hsplit := List.length_eq_length_filter_add
      (l := idRange 0 n) (fun x => decide (x ∉ closes))
    have hperm : ((idRange 0 n).filter (fun x => ! decide (x ∉ closes))).length
        = closes.length := by
      refine ((List.perm_ext_iff_of_nodup ((idRange_nodup 0 n).filter _) hnd).mpr ?_).length_eq
      intro a
      simp only [List.mem_filter, mem_idRange]
      constructor
      · rintro ⟨_, ha⟩
        simpa using ha
      · intro ha
        exact ⟨⟨Nat.zero_le a, by simpa using hlt a ha⟩, by simpa using ha⟩
    rw [idRange_length] at hsplit
    omega
  · intro i hi
    rw [htr]
    rw [List.mem_filter]
    rintro ⟨_, h2⟩
    simp at h2
    exact h2 hi
  · rw [htr]
    exact (idRange_nodup 0 n).filter _

/-- Witness for C6: three streams open, the first and third close; one entry
(id 1) remains, neither closed id is present, and no id is duplicated. -/
theorem c6_connection_registry_count_witness :
    (gatewayScenario 3 [0, 2]).transports.length = 3 - ([0, 2] : List Nat).length ∧
    (∀ i ∈ ([0, 2] : List Nat), i ∉ (gatewayScenario 3 [0, 2]).transports) ∧
    (gatewayScenario 3 [0, 2]).transports.Nodup :=
  c6_connection_registry_count 3 [0, 2] (by decide) (by decide)

/-! ## Claim C8 -/

/-- C8: the claim says the process exits 0 on `--help`/`--version` and with a
non-zero code when `AIRTOP_API_KEY` is missing.  The first part holds; the
second does not: `main` does throw when the credential is missing, but the
rejection is handled by `main().catch(console.error)`, which only logs it, so
the process drains its event loop and exits with code 0 — the evaluation at
the failing input (no flags, no credential) yields exit code 0, not a
non-zero code. -/
theorem c8_missing_credential_exits_zero :
    processExitCode ["--help"] { airtopApiKey := none, portVar := none } = some 0 ∧
    processExitCode ["--version"] { airtopApiKey := none, portVar := none } = some 0 ∧
    mainRun [] { airtopApiKey := none, portVar := none }
      = .threw "AIRTOP_API_KEY environment variable is required" ∧
    processExitCode [] { airtopApiKey := none, portVar := none } = some 0 :=
  ⟨rfl, rfl, rfl, rfl⟩

/-! ## Claim C9 -/

/-- C9: the claim says the listening port defaults to 3456 and is overridable
by configuration.  The default holds, but no configuration can change it:
`PORT` is the compile-time constant 3456, `process.env.PORT` is never read,
and every started HTTP server listens on 3456 — in particular with
`PORT=8080` in the environment. -/
theorem c9_listen_port_constant :
    (∀ (argv : List String) (env : Env),
        serverListenPort argv env = none ∨ serverListenPort argv env = some 3456) ∧
    serverListenPort ["--listen"] { airtopApiKey := some "key", portVar := some "8080" }
      = some 3456 := by
  constructor
  · intro argv env
    unfold serverListenPort
    cases mainRun argv env with
    | exited c => exact Or.inl rfl
    | threw msg => exact Or.inl rfl
    | started listening =>
      cases listening
      · exact Or.inl rfl
      · exact Or.inr rfl
  · rfl

theorem ok_mkTextResult_content {t : JSValue} {bflag : Bool} {r : ToolResult}
    (h : (Except.ok (mkTextResult t bflag) : Except String ToolResult) = .ok r) :
    r.content ≠ [] := by
  injection h with h
  rw [← h]
  simp [mkTextResult]

theorem tryWrap_content {body : Except String ToolResult} {msgHead : String} {r : ToolResult}
    (hbody : ∀ r0, body = .ok r0 → r0.content ≠ [])
    (h : tryWrap body msgHead = .ok r) : r.content ≠ [] := by
  unfold tryWrap at h
  split at h
  · injection h with h
    exact h ▸ hbody _ rfl
  · exact ok_mkTextResult_content h

theorem bodyContent_createSession (b : Backend) (r : ToolResult)
    (h : createSessionBody b = .ok r) : r.content ≠ [] := by
  unfold createSessionBody at h
  repeat' split at h
  all_goals
    first
      | exact reportAirtopErrors_ok_content h
      | exact successJson_ok_content h
      | simp_all

theorem bodyContent_pageQuery (b : Backend) (args : JSValue) (r : ToolResult)
    (h : pageQueryBody b args = .ok r) : r.content ≠ [] := by
  unfold pageQueryBody at h
  repeat' split at h
  all_goals
    first
      | exact reportAirtopErrors_ok_content h
      | exact successJson_ok_content h
      | simp_all

theorem bodyContent_createWindow (b : Backend) (args : JSValue) (r : ToolResult)
    (h : createWindowBody b args = .ok r) : r.content ≠ [] := by
  unfold createWindowBody at h
  repeat' split at h
  all_goals
    first
      | exact reportAirtopErrors_ok_content h
      | exact successJson_ok_content h
      | simp_all

theorem bodyContent_getWindowInfo (b : Backend) (args : JSValue) (r : ToolResult)
    (h : getWindowInfoBody b args = .ok r) : r.content ≠ [] := by
  unfold getWindowInfoBody at h
  repeat' split at h
  all_goals
    first
      | exact reportAirtopErrors_ok_content h
      | exact successJson_ok_content h
      | simp_all

theorem bodyContent_paginatedExtraction (b : Backend) (args : JSValue) (r : ToolResult)
    (h : paginatedExtractionBody b args = .ok r) : r.content ≠ [] := by
  unfold paginatedExtractionBody at h
  repeat' split at h
  all_goals
    first
      | exact successJson_ok_content h
      | simp_all

theorem bodyContent_click (b : Backend) (args : JSValue) (r : ToolResult)
    (h : clickBody b args = .ok r) : r.content ≠ [] := by
  unfold clickBody at h
  repeat' split at h
  all_goals
    first
      | exact reportAirtopErrors_ok_content h
      | exact successJson_ok_content h
      | simp_all

theorem bodyContent_scroll (b : Backend) (args : JSValue) (r : ToolResult)
    (h : scrollBody b args = .ok r) : r.content ≠ [] := by
  unfold scrollBody at h
  repeat' split at h
  all_goals
    first
      | exact reportAirtopErrors_ok_content h
      | exact successJson_ok_content h
      | simp_all

theorem bodyContent_type (b : Backend) (args : JSValue) (r : ToolResult)
    (h : typeBody b args = .ok r) : r.content ≠ [] := by
  unfold typeBody at h
  repeat' split at h
  all_goals
    first
      | exact reportAirtopErrors_ok_content h
      | exact successJson_ok_content h
      | simp_all

theorem bodyContent_scrape (b : Backend) (args : JSValue) (r : ToolResult)
    (h : scrapeBody b args = .ok r) : r.content ≠ [] := by
  unfold scrapeBody at h
  repeat' split at h
  all_goals
    first
      | exact reportAirtopErrors_ok_content h
      | exact successJson_ok_content h
      | simp_all

theorem bodyContent_fileInput (b : Backend) (args : JSValue) (r : ToolResult)
    (h : fileInputBody b args = .ok r) : r.content ≠ [] := by
  unfold fileInputBody at h
  repeat' split at h
  all_goals
    first
      | exact successJson_ok_content h
      | simp_all

theorem bodyContent_monitorForCondition (b : Backend) (args : JSValue) (r : ToolResult)
    (h : monitorForConditionBody b args = .ok r) : r.content ≠ [] := by
  unfold monitorForConditionBody at h
  repeat' split at h
  all_goals
    first
      | exact reportAirtopErrors_ok_content h
      | exact successJson_ok_content h
      | simp_all

theorem contentOk_createSession : handlerContentOk createSessionTool := by
  intro b now raw reg r reg2 h
  simp only [createSessionTool, createSessionHandler, Prod.mk.injEq] at h
  exact bodyContent_createSession b r h.1

theorem contentOk_createSessionWithOptions : handlerContentOk createSessionWithOptionsTool := by
  intro b now raw reg r reg2 h
  simp only [createSessionWithOptionsTool, createSessionWithOptionsHandler] at h
  repeat' split at h
  all_goals
    rw [Prod.mk.injEq] at h
    first
      | exact reportAirtopErrors_ok_content h.1
      | exact successJson_ok_content h.1
      | simp_all

theorem contentOk_createWindow : handlerContentOk createWindowTool := by
  intro b now raw reg r reg2 h
  simp only [createWindowTool, createWindowHandler, Prod.mk.injEq] at h
  exact bodyContent_createWindow b raw r h.1

theorem contentOk_pageQuery : handlerContentOk pageQueryTool := by
  intro b now raw reg r reg2 h
  simp only [pageQueryTool, pageQueryHandler, Prod.mk.injEq] at h
  exact tryWrap_content (fun r0 h0 => bodyContent_pageQuery b raw r0 h0) h.1

theorem contentOk_terminateSession : handlerContentOk terminateSessionTool := by
  intro b now raw reg r reg2 h
  simp only [terminateSessionTool, terminateSessionHandler] at h
  split at h
  all_goals
    rw [Prod.mk.injEq] at h
    first
      | exact ok_mkTextResult_content h.1
      | simp_all

theorem contentOk_getWindowInfo : handlerContentOk getWindowInfoTool := by
  intro b now raw reg r reg2 h
  simp only [getWindowInfoTool, getWindowInfoHandler, Prod.mk.injEq] at h
  exact bodyContent_getWindowInfo b raw r h.1

theorem contentOk_paginatedExtraction : handlerContentOk paginatedExtractionTool := by
  intro b now raw reg r reg2 h
  simp only [paginatedExtractionTool, paginatedExtractionHandler, Prod.mk.injEq] at h
  exact bodyContent_paginatedExtraction b raw r h.1

theorem contentOk_click : handlerContentOk clickTool := by
  intro b now raw reg r reg2 h
  simp only [clickTool, clickHandler, Prod.mk.injEq] at h
  exact tryWrap_content (fun r0 h0 => bodyContent_click b raw r0 h0) h.1

theorem contentOk_scroll : handlerContentOk scrollTool := by
  intro b now raw reg r reg2 h
  simp only [scrollTool, scrollHandler, Prod.mk.injEq] at h
  exact bodyContent_scroll b raw r h.1

theorem contentOk_type : handlerContentOk typeTool := by
  intro b now raw reg r reg2 h
  simp only [typeTool, typeHandler, Prod.mk.injEq] at h
  exact bodyContent_type b raw r h.1

theorem contentOk_scrape : handlerContentOk scrapeTool := by
  intro b now raw reg r reg2 h
  simp only [scrapeTool, scrapeHandler, Prod.mk.injEq] at h
  exact tryWrap_content (fun r0 h0 => bodyContent_scrape b raw r0 h0) h.1

theorem contentOk_fileInput : handlerContentOk fileInputTool := by
  intro b now raw reg r reg2 h
  simp only [fileInputTool, fileInputHandler, Prod.mk.injEq] at h
  exact tryWrap_content (fun r0 h0 => bodyContent_fileInput b raw r0 h0) h.1

theorem contentOk_monitorForCondition : handlerContentOk monitorForConditionTool := by
  intro b now raw reg r reg2 h
  simp only [monitorForConditionTool, monitorForConditionHandler, Prod.mk.injEq] at h
  exact bodyContent_monitorForCondition b raw r h.1

theorem airtopTools_contentOk : ∀ t ∈ airtopTools, handlerContentOk t := by
  intro t ht
  fin_cases ht
  · exact contentOk_createSession
  · exact contentOk_createSessionWithOptions
  · exact contentOk_createWindow
  · exact contentOk_pageQuery
  · exact contentOk_terminateSession
  · exact contentOk_getWindowInfo
  · exact contentOk_paginatedExtraction
  · exact contentOk_click
  · exact contentOk_scroll
  · exact contentOk_type
  · exact contentOk_scrape
  · exact contentOk_fileInput
  · exact contentOk_monitorForCondition

theorem airtopTools_find_self : ∀ t ∈ airtopTools,
    airtopTools.find? (fun u => u.name = t.name) = some t := by
  intro t ht
  fin_cases ht <;> rfl

/-! ## Claim C1 -/

/-- C1: for every registered tool and every input its schema accepts,
invoking the tool returns a `ToolResult` envelope with a non-empty content
sequence — `invoke` is a total function into envelopes, so no exception
reaches the caller — and whenever the handler execution throws (including a
rejection of the delegated Airtop backend call, which the universally
quantified backend may produce on any method), the registry boundary converts
it into an envelope with `isError = true`. -/
theorem c1_invoke_returns_envelope :
    ∀ t ∈ airtopTools, ∀ (b : Backend) (now : Nat) (raw : JSValue) (reg : SessionRegistry),
      schemaAccepts t raw = true →
      (invoke airtopTools b now t.name raw reg).1.content ≠ [] ∧
      (∀ e reg2, t.handler b now raw reg = (.error e, reg2) →
        (invoke airtopTools b now t.name raw reg).1.isError = true) := by
  intro t ht b now raw reg hs
  have hfind := airtopTools_find_self t ht
  have hcontent := airtopTools_contentOk t ht
  have hinv : invoke airtopTools b now t.name raw reg = runHandler t b now raw reg := by
    unfold invoke
    rw [hfind]
    unfold schemaAccepts at hs
    cases hsc : t.schema with
    | none => simp [hsc]
    | some validate =>
      rw [hsc] at hs
      simp only [] at hs
      simp [hsc, hs]
  rw [hinv]
  constructor
  · unfold runHandler
    cases hh : t.handler b now raw reg with
    | mk res reg2 =>
      cases res with
      | ok r => simpa using hcontent b now raw reg r reg2 hh
      | error e => simp [mkTextResult]
  · intro e reg2 he
    unfold runHandler
    rw [he]
    simp [mkTextResult]

/-- Witness for C1: `createWindow` on a schema-valid input against a backend
whose every call rejects; the envelope is non-empty and, the handler having
thrown, is flagged `isError`. -/
theorem c1_invoke_returns_envelope_witness :
    (invoke airtopTools (constBackend (.error "network down")) 0 createWindowTool.name
        (jObj [("sessionId", vStr "s"), ("url", vStr "https://x")]) []).1.content ≠ [] ∧
    (∀ e reg2, createWindowTool.handler (constBackend (.error "network down")) 0
        (jObj [("sessionId", vStr "s"), ("url", vStr "https://x")]) [] = (.error e, reg2) →
      (invoke airtopTools (constBackend (.error "network down")) 0 createWindowTool.name
        (jObj [("sessionId", vStr "s"), ("url", vStr "https://x")]) []).1.isError = true) :=
  c1_invoke_returns_envelope createWindowTool (by simp [airtopTools])
    (constBackend (.error "network down")) 0
    (jObj [("sessionId", vStr "s"), ("url", vStr "https://x")]) [] (by rfl)

/-! ## Claim C4 -/

theorem replaceHandler_name (name : String) (hfn : HandlerFn) (t : Tool) :
    (replaceHandler name hfn t).name = t.name := by
  unfold replaceHandler
  split <;> rfl

theorem replaceHandler_schema (name : String) (hfn : HandlerFn) (t : Tool) :
    (replaceHandler name hfn t).schema = t.schema := by
  unfold replaceHandler
  split <;> rfl

theorem find_map_replaceHandler (name : String) (hfn : HandlerFn) (l : List Tool) :
    (l.map (replaceHandler name hfn)).find? (fun u => u.name = name)
      = (l.find? (fun u => u.name = name)).map (replaceHandler name hfn) := by
  have hp : ((fun u => decide (u.name = name)) ∘ replaceHandler name hfn)
      = (fun u : Tool => decide (u.name = name)) := by
    funext u
    simp [Function.comp, replaceHandler_name]
  rw [List.find?_map, hp]

theorem invoke_reject_of_schema_false {tools : List Tool} {name : String} {t : Tool}
    {s : JSValue → Bool} {raw : JSValue}
    (hfind : tools.find? (fun u => u.name = name) = some t)
    (hschema : t.schema = some s) (hraw : s raw = false)
    (b : Backend) (now : Nat) (reg : SessionRegistry) :
    invoke tools b now name raw reg
      = (mkTextResult (vStr ("Invalid arguments for tool " ++ name)) true, reg) := by
  unfold invoke
  rw [hfind]
  simp only [hschema, hraw]
  simp

/-- C4: for every tool that declares an input schema and every raw input the
schema rejects, `invoke` returns the validation-error envelope (flagged
`isError = true`) and leaves the registry untouched, and it does so whatever
handler is installed for the tool and whatever the backend would answer — the
handler is never called and the backend never contacted, and no exception is
thrown (`invoke` is total). -/
theorem c4_schema_reject_never_calls_handler :
    ∀ t ∈ airtopTools, ∀ (s : JSValue → Bool), t.schema = some s →
      ∀ (raw : JSValue), s raw = false →
      ∀ (hfn : HandlerFn) (b : Backend) (now : Nat) (reg : SessionRegistry),
        invoke (airtopTools.map (replaceHandler t.name hfn)) b now t.name raw reg
          = (mkTextResult (vStr ("Invalid arguments for tool " ++ t.name)) true, reg) := by
  intro t ht s hsch raw hraw hfn b now reg
  have hfind0 := airtopTools_find_self t ht
  have hfind : (airtopTools.map (replaceHandler t.name hfn)).find? (fun u => u.name = t.name)
      = some (replaceHandler t.name hfn t) := by
    rw [find_map_replaceHandler, hfind0]
    rfl
  exact invoke_reject_of_schema_false hfind (by rw [replaceHandler_schema, hsch]) hraw b now reg

/-- Witness for C4: `createWindow` invoked on the number `5` (not an object),
with an arbitrary replacement handler and a backend that would answer
successfully; the result is the validation envelope and the registry is
unchanged. -/
theorem c4_schema_reject_never_calls_handler_witness :
    invoke (airtopTools.map (replaceHandler createWindowTool.name
        (fun _ _ _ reg => (.ok (mkTextResult vNull false), reg))))
      (constBackend (.ok vNull)) 0 createWindowTool.name (vNum 5) []
      = (mkTextResult (vStr ("Invalid arguments for tool " ++ createWindowTool.name)) true, []) :=
  c4_schema_reject_never_calls_handler createWindowTool (by simp [airtopTools])
    createWindowSchema rfl (vNum 5) rfl
    (fun _ _ _ reg => (.ok (mkTextResult vNull false), reg)) (constBackend (.ok vNull)) 0 []
